import Mathlib

set_option maxHeartbeats 1000000

/-!
Shallow embedding of the tekstil-lead-finder outreach pipeline
(template rendering, email finding/validation/enrichment, lead saving,
email sending with a daily cap, and campaign runs), together with
theorems settling the behavioural claims about it.

Dates and timestamps are abstracted as natural numbers; outcomes of
external effects (SMTP transmission, DNS resolution, library-level
address syntax checking, website scraping) are passed in as explicit
oracle parameters, since those live outside the program.
-/

/- ===================== Template Manager (outreach/email_templates.py) ===================== -/

/-- Values a template variable can take: plain strings or lists of strings
(the Python code passes both through a single dict). -/
inductive TValue where
  | str (s : String)
  | list (xs : List String)
deriving DecidableEq

/-- A merged variable mapping; earlier entries shadow later ones
(so prepending an entry models a Python dict key update). -/
abbrev VarMap := List (String × TValue)

/-- Variable lookup in a mapping, first match wins. -/
def lookupVar (m : VarMap) (k : String) : Option TValue := List.lookup k m

/-- Python str() of a template value, as substituted into a rendered string. -/
def tvalToString : TValue → String
  | .str s => s
  | .list xs => "[" ++ String.intercalate ", " (xs.map (fun s => "\x27" ++ s ++ "\x27")) ++ "]"

/-- One parsed piece of a format string: a literal chunk or a field reference. -/
inductive FormatPart where
  | lit (s : List Char)
  | field (name : String)
deriving DecidableEq

/-- Parser for Python str.format pattern strings restricted to plain named
fields, with doubled-brace escapes; returns none on a malformed string.
First argument: none = literal mode, some acc = inside a field, with the
name read so far in reverse. -/
def parseFmt : Option (List Char) → List Char → Option (List FormatPart)
  | none, [] => some []
  | some _, [] => none
  | none, '{' :: '{' :: rest => (parseFmt none rest).map (fun ps => .lit ['{'] :: ps)
  | none, '}' :: '}' :: rest => (parseFmt none rest).map (fun ps => .lit ['}'] :: ps)
  | none, '{' :: rest => parseFmt (some []) rest
  | none, '}' :: _ => none
  | none, c :: rest => (parseFmt none rest).map (fun ps => .lit [c] :: ps)
  | some acc, '}' :: rest => (parseFmt none rest).map (fun ps => .field (String.mk acc.reverse) :: ps)
  | some acc, c :: rest => parseFmt (some (c :: acc)) rest

/-- Parse a whole format string. -/
def parseFormat (s : String) : Option (List FormatPart) := parseFmt none s.data

/-- Field names referenced by a parsed format string, in order of appearance. -/
def partFields (parts : List FormatPart) : List String :=
  parts.filterMap (fun p => match p with | .field k => some k | .lit _ => none)

/-- Failure modes of str.format: a missing key (Python KeyError) or a
malformed pattern string (Python ValueError). -/
inductive FormatErr where
  | missingKey (k : String)
  | malformed
deriving DecidableEq

/-- Substitute parsed parts; fails on the first referenced field missing from
the mapping, like Python str.format raising KeyError. -/
def substParts (m : VarMap) : List FormatPart → Except FormatErr String
  | [] => .ok ""
  | .lit s :: ps => (substParts m ps).map (fun r => String.mk s ++ r)
  | .field k :: ps =>
    match lookupVar m k with
    | some v => (substParts m ps).map (fun r => tvalToString v ++ r)
    | none => .error (.missingKey k)

/-- Python s.format(**m) for the plain-named-field subset used by the templates. -/
def pyFormat (s : String) (m : VarMap) : Except FormatErr String :=
  match parseFormat s with
  | none => .error .malformed
  | some parts => substParts m parts

/-- A template: a subject pattern and a body pattern. -/
structure Template where
  subject : String
  body : String
deriving DecidableEq

/-- The static TEMPLATES table from outreach/email_templates.py. -/
def TEMPLATES : List (String × Template) := [
  ("initial_contact_en",
   { subject := "Textile Manufacturing Partnership - {company_name}",
     body := "Dear {contact_name},\n\nI hope this email finds you well.\n\nI am reaching out from {our_company}, a textile manufacturer based in Turkey with a monthly production capacity of {monthly_capacity}.\n\nWe specialize in:\n{specialization_list}\n\nOur certifications include: {certifications}\n\nWe are currently seeking new partnerships with companies like {their_company} and would be interested in discussing how we might work together.\n\nWould you be available for a brief call to explore potential collaboration?\n\nBest regards,\n{sender_name}\n{sender_title}\n{our_company}\n{contact_info}\n" }),
  ("initial_contact_de",
   { subject := "Textilproduktion Partnerschaft - {company_name}",
     body := "Sehr geehrte(r) {contact_name},\n\nich hoffe, diese E-Mail erreicht Sie wohlauf.\n\nIch schreibe Ihnen im Namen von {our_company}, einem Textilhersteller mit Sitz in der Türkei und einer monatlichen Produktionskapazität von {monthly_capacity}.\n\nWir sind spezialisiert auf:\n{specialization_list}\n\nUnsere Zertifizierungen umfassen: {certifications}\n\nWir suchen derzeit nach neuen Partnerschaften mit Unternehmen wie {their_company} und würden gerne besprechen, wie wir zusammenarbeiten können.\n\nWären Sie für ein kurzes Gespräch verfügbar, um eine mögliche Zusammenarbeit zu erkunden?\n\nMit freundlichen Grüßen,\n{sender_name}\n{sender_title}\n{our_company}\n{contact_info}\n" }),
  ("initial_contact_tr",
   { subject := "Tekstil Üretim İş Birliği Teklifi - {company_name}",
     body := "Sayın {contact_name},\n\nBu e-postanın sizi iyi bulmasını dilerim.\n\nTürkiye merkezli, aylık {monthly_capacity} üretim kapasitesine sahip bir tekstil üreticisi olan {our_company} adına sizinle iletişime geçiyorum.\n\nUzmanlık alanlarımız:\n{specialization_list}\n\nSertifikalarımız: {certifications}\n\n{their_company} gibi firmalarla yeni iş birlikleri kurmak istiyoruz ve nasıl birlikte çalışabileceğimizi görüşmek isteriz.\n\nPotansiyel iş birliği için kısa bir görüşme yapmaya müsait misiniz?\n\nSaygılarımla,\n{sender_name}\n{sender_title}\n{our_company}\n{contact_info}\n" }),
  ("initial_contact_ar",
   { subject := "شراكة تصنيع المنسوجات - {company_name}",
     body := "السيد/السيدة {contact_name} المحترم(ة)،\n\nأتمنى أن تصلكم رسالتي وأنتم بخير.\n\nأتواصل معكم من {our_company}، وهي شركة تصنيع منسوجات مقرها تركيا بطاقة إنتاجية شهرية تبلغ {monthly_capacity}.\n\nنحن متخصصون في:\n{specialization_list}\n\nشهاداتنا تشمل: {certifications}\n\nنبحث حالياً عن شراكات جديدة مع شركات مثل {their_company} ونرغب في مناقشة إمكانية التعاون.\n\nهل أنتم متاحون لمكالمة قصيرة لاستكشاف التعاون المحتمل؟\n\nمع أطيب التحيات،\n{sender_name}\n{sender_title}\n{our_company}\n{contact_info}\n" }),
  ("follow_up_1",
   { subject := "Re: Textile Manufacturing Partnership - Following Up",
     body := "Dear {contact_name},\n\nI wanted to follow up on my previous email regarding a potential textile manufacturing partnership.\n\nI understand you may be busy, but I believe our production capabilities could be a great fit for {their_company}\x27s sourcing needs.\n\nA few quick highlights:\n- Monthly capacity: {monthly_capacity}\n- Quick turnaround times\n- Competitive pricing\n- Quality certifications: {certifications}\n\nWould you have 15 minutes for a quick call this week?\n\nBest regards,\n{sender_name}\n{our_company}\n" }),
  ("follow_up_2",
   { subject := "Final Follow-up: Textile Manufacturing Inquiry",
     body := "Dear {contact_name},\n\nThis is my final follow-up regarding our textile manufacturing capabilities.\n\nIf you\x27re not the right person for this inquiry, could you please point me to the appropriate contact in your purchasing/sourcing department?\n\nI\x27d be happy to send our product catalog and price list if that would be helpful.\n\nThank you for your time.\n\nBest regards,\n{sender_name}\n{our_company}\n{contact_info}\n" }),
  ("catalog_offer",
   { subject := "Product Catalog & Price List - {our_company}",
     body := "Dear {contact_name},\n\nThank you for your interest in {our_company}.\n\nAs requested, please find attached our product catalog and price list.\n\nKey information:\n- MOQ: {moq}\n- Lead time: {lead_time}\n- Payment terms: {payment_terms}\n- Shipping: {shipping_info}\n\nPlease don\x27t hesitate to reach out if you have any questions or would like to request samples.\n\nBest regards,\n{sender_name}\n{our_company}\n" })
]

/-- The COMPANY_INFO mapping from config/settings.py with its default
(no-environment-override) values. -/
def COMPANY_INFO : VarMap := [
  ("name", .str "Your Textile Company"),
  ("monthly_capacity", .str "200,000 pieces"),
  ("specialization", .list ["T-shirts", "Polo shirts", "Hoodies", "Sportswear", "Casual wear"]),
  ("certifications", .list ["ISO 9001", "OEKO-TEX", "GOTS"]),
  ("website", .str "www.yourcompany.com"),
  ("contact_email", .str "export@yourcompany.com"),
  ("phone", .str "+90 xxx xxx xx xx")
]

/-- Merge company info with call-supplied vars (call-supplied wins),
then expand a specialization list into a bulleted block under the key
specialization_list, and join a certifications list with commas
(EmailTemplateManager.render_template, pre-substitution phase). -/
def processVars (companyInfo vars : VarMap) : VarMap :=
  let allVars : VarMap := vars ++ companyInfo
  let allVars : VarMap :=
    match lookupVar allVars "specialization" with
    | some (.list xs) =>
      ("specialization_list", .str (String.intercalate "\n" (xs.map (fun s => "• " ++ s)))) :: allVars
    | _ => allVars
  match lookupVar allVars "certifications" with
  | some (.list xs) => ("certifications", .str (String.intercalate ", " xs)) :: allVars
  | _ => allVars

/-- Error message raised when the template name is unknown. -/
def notFoundMsg (name : String) : String := "Template \x27" ++ name ++ "\x27 not found"

/-- Error message raised when a placeholder has no key (KeyError path). -/
def missingVarMsg (k : String) : String := "Missing variable in template: \x27" ++ k ++ "\x27"

/-- Stringify a format failure the way the Python code surfaces it. -/
def fmtErrMsg : FormatErr → String
  | .missingKey k => missingVarMsg k
  | .malformed => "Single brace encountered in format string"

/-- EmailTemplateManager.render_template: look the template up, build the
merged variable mapping, substitute subject then body; any failure is an
error and no partial subject/body pair is produced. -/
def renderTemplate (companyInfo : VarMap) (name : String) (vars : VarMap) :
    Except String (String × String) :=
  match List.lookup name TEMPLATES with
  | none => .error (notFoundMsg name)
  | some tpl =>
    let allVars := processVars companyInfo vars
    match pyFormat tpl.subject allVars with
    | .error e => .error (fmtErrMsg e)
    | .ok subject =>
      match pyFormat tpl.body allVars with
      | .error e => .error (fmtErrMsg e)
      | .ok body => .ok (subject, body)

/-- All placeholder names referenced by a template (subject then body). -/
def templatePlaceholders (tpl : Template) : List String :=
  partFields ((parseFormat tpl.subject).getD []) ++ partFields ((parseFormat tpl.body).getD [])

/- ===================== Email Finder (email_tools/email_finder.py) ===================== -/

/-- The fixed priority keyword list of EmailFinder._prioritize_emails. -/
def priorityPrefixes : List String :=
  ["export", "import", "sales", "purchasing", "procurement",
   "buyer", "orders", "inquiry", "info", "contact", "hello"]

/-- Python substring containment (p in s) on character lists. -/
def containsSub (needle : List Char) : List Char → Bool
  | [] => needle.isEmpty
  | c :: rest => needle.isPrefixOf (c :: rest) || containsSub needle rest

/-- Python email.split(\x27@\x27)[0]: the mailbox-name part before the first at-sign
(or the whole string when there is none). -/
def mailboxName (email : String) : String := String.mk (email.data.takeWhile (fun c => c ≠ '@'))

/-- Lowercase a string character-wise (Python str.lower on ASCII input). -/
def lowerStr (s : String) : String := String.mk (s.data.map Char.toLower)

/-- The enumerate loop of get_priority: index of the first keyword contained
in the mailbox name, or the number of keywords when none matches. -/
def getPriorityAux (mbox : List Char) : List String → Nat
  | [] => 0
  | p :: ps => if containsSub p.data mbox then 0 else getPriorityAux mbox ps + 1

/-- EmailFinder._prioritize_emails.get_priority: the index of the first
priority keyword contained in the lowercased mailbox name, or the list
length when none matches. -/
def getPriority (email : String) : Nat :=
  getPriorityAux (lowerStr (mailboxName email)).data priorityPrefixes

/-- Stable insertion of an email in front of the first element of strictly
larger priority; equal priorities keep the existing element first. -/
def insortByPriority (x : String) : List String → List String
  | [] => [x]
  | y :: ys =>
    if getPriority x ≤ getPriority y then x :: y :: ys
    else y :: insortByPriority x ys

/-- EmailFinder._prioritize_emails: Python sorted(emails, key=get_priority),
a stable sort on the priority key, realized as stable insertion sort. -/
def prioritizeEmails (emails : List String) : List String :=
  emails.foldr insortByPriority []

/-- EmailFinder.generate_email_patterns: role-based generic guesses for the
domain, plus name-combination patterns when both names are given. -/
def generateEmailPatterns (domain : String) (firstName lastName : Option String) : List String :=
  let generic :=
    ["info@" ++ domain, "contact@" ++ domain, "sales@" ++ domain, "export@" ++ domain,
     "import@" ++ domain, "purchasing@" ++ domain, "orders@" ++ domain, "hello@" ++ domain]
  match firstName, lastName with
  | some fn, some ln =>
    let first := lowerStr fn
    let last := lowerStr ln
    let f := String.mk (first.data.take 1)
    let l := String.mk (last.data.take 1)
    generic ++
      [first ++ "@" ++ domain, last ++ "@" ++ domain,
       first ++ "." ++ last ++ "@" ++ domain, first ++ "_" ++ last ++ "@" ++ domain,
       f ++ last ++ "@" ++ domain, first ++ l ++ "@" ++ domain,
       first ++ last ++ "@" ++ domain]
  | _, _ => generic

/-- Python s.replace(old, new) with new = "", scanning left to right over
non-overlapping occurrences; fuel-driven so it evaluates by kernel reduction. -/
def removeAllAux (pat : List Char) : Nat → List Char → List Char
  | 0, l => l
  | _ + 1, [] => []
  | fuel + 1, c :: rest =>
    if pat.isPrefixOf (c :: rest) then removeAllAux pat fuel ((c :: rest).drop pat.length)
    else c :: removeAllAux pat fuel rest

/-- Remove every occurrence of pat from s. -/
def removeAll (s pat : String) : String :=
  String.mk (removeAllAux pat.data s.data.length s.data)

/-- Network location of an absolute http(s) URL: the segment after the first
double slash, up to the next slash, question mark or fragment marker
(models urllib.parse.urlparse(...).netloc for the URLs built here). -/
def urlNetloc (url : String) : String :=
  let rec go : List Char → List Char
    | '/' :: '/' :: rest => rest.takeWhile (fun c => c ≠ '/' ∧ c ≠ '?' ∧ c ≠ '#')
    | _ :: rest => go rest
    | [] => []
  String.mk (go url.data)

/-- EmailFinder.get_domain_from_website: empty input gives an empty domain;
otherwise normalize to an https URL when no http scheme is present, take the
netloc, and strip every www. occurrence. -/
def getDomainFromWebsite (website : String) : String :=
  if website = "" then ""
  else
    let w := if "http".data.isPrefixOf website.data then website else "https://" ++ website
    removeAll (urlNetloc w) "www."

/- ===================== Email Validator (email_tools/email_finder.py) ===================== -/

/-- Result of EmailValidator.validate, extended with an observation flag
recording whether a DNS MX query was attempted. -/
structure ValidateOut where
  isValid : Bool
  message : String
  mxQueried : Bool
deriving DecidableEq

/-- Python email.split(\x27@\x27)[1]: the part between the first and second
at-sign (empty when absent; the real code would raise there, but its
input always carries one at-sign after library validation). -/
def pyDomainOf (email : String) : String := ((email.splitOn "@").drop 1).headD ""

/-- EmailValidator._check_mx_record: true exactly when the resolver call
returns normally; every exception (no record, timeout, servfail) is false. -/
def checkMxRecord (mxResolve : String → Except String Unit) (domain : String) : Bool :=
  (mxResolve domain).isOk

/-- EmailValidator.validate: library format check first (its failure reason
is returned as-is and no DNS query happens), then the MX record check,
whose failure yields the fixed no-MX-records message. -/
def validate (formatCheck : String → Except String String)
    (mxResolve : String → Except String Unit) (email : String) : ValidateOut :=
  match formatCheck email with
  | .error e => { isValid := false, message := e, mxQueried := false }
  | .ok normalized =>
    if checkMxRecord mxResolve (pyDomainOf normalized) then
      { isValid := true, message := "Valid", mxQueried := true }
    else
      { isValid := false, message := "Domain has no MX records", mxQueried := true }

/- ===================== Email Enricher (email_tools/email_finder.py) ===================== -/

/-- The lead dictionary as EmailEnricher.enrich_lead sees it: optional keys,
absence modeled as none. -/
structure EnrichLead where
  website : Option String
  email : Option String
  emailVerified : Option Bool
  emailType : Option String
  allEmails : Option (List String)
deriving DecidableEq

/-- EmailEnricher.enrich_lead. The finder oracle stands for
EmailFinder.find_email_from_website (network scraping) and the validity
oracle for EmailValidator.validate restricted to its boolean verdict
(library syntax check plus DNS MX lookup). With no website the lead is
returned unchanged; with website-derived candidates the first is taken
and its validation verdict recorded; otherwise the first five generated
pattern candidates are validated in order and the first valid one is
stored as generated and unverified. -/
def enrichLead (finder : String → List String) (validOracle : String → Bool)
    (lead : EnrichLead) : EnrichLead :=
  let w := (lead.website.getD "")
  if w = "" then lead
  else
    match finder w with
    | e :: rest =>
      { lead with
          email := some e,
          emailVerified := some (validOracle e),
          allEmails := some (e :: rest) }
    | [] =>
      let domain := getDomainFromWebsite w
      if domain = "" then lead
      else
        match ((generateEmailPatterns domain none none).take 5).find? validOracle with
        | some e =>
          { lead with
              email := some e,
              emailVerified := some false,
              emailType := some "generated" }
        | none => lead

/- ===================== Lead store save loop (main.py search) ===================== -/

/-- A scraped lead record as a dictionary: every field optional. -/
structure LeadData where
  companyName : Option String
  website : Option String
  email : Option String
  emailVerified : Bool
  phone : Option String
  source : Option String
  sourceUrl : Option String
deriving DecidableEq

/-- A persisted leads-table row (the columns the save loop writes). -/
structure LeadRowS where
  companyName : Option String
  website : Option String
  email : Option String
  emailVerified : Bool
  phone : Option String
  country : Option String
  city : Option String
  source : Option String
  searchQuery : Option String
  sourceUrl : Option String
deriving DecidableEq

/-- Row construction from a scraped record (main.py search, Lead(...)). -/
def mkLeadRow (country city query : Option String) (d : LeadData) : LeadRowS :=
  { companyName := d.companyName, website := d.website, email := d.email,
    emailVerified := d.emailVerified, phone := d.phone, country := country,
    city := city, source := d.source, searchQuery := query, sourceUrl := d.sourceUrl }

/-- The duplicate check filter_by(company_name=..., website=...). -/
def rowMatches (cn w : Option String) (r : LeadRowS) : Bool :=
  r.companyName == cn && r.website == w

/-- The save loop of main.py search: for each scraped record, insert a new
row unless a row with the same (company_name, website) pair already exists;
the session sees rows added earlier in the same run (autoflush). Returns
the table and the number of newly saved rows. -/
def saveLeads (country city query : Option String) (db : List LeadRowS) :
    List LeadData → List LeadRowS × Nat
  | [] => (db, 0)
  | d :: rest =>
    if db.any (rowMatches d.companyName d.website) then
      saveLeads country city query db rest
    else
      let r := saveLeads country city query (db ++ [mkLeadRow country city query d]) rest
      (r.1, r.2 + 1)

/-- Number of rows carrying a given (company_name, website) pair. -/
def keyCount (cn w : Option String) (db : List LeadRowS) : Nat :=
  db.countP (rowMatches cn w)

/- ===================== Email Sender (outreach/email_sender.py) ===================== -/

/-- The slice of EMAIL_CONFIG the sender logic reads. -/
structure SenderConfig where
  dailySendLimit : Nat
deriving DecidableEq

/-- EmailSender mutable state: the rolling daily counter and the date of its
last reset (dates as naturals). -/
structure SenderState where
  dailySent : Nat
  lastReset : Nat
deriving DecidableEq

/-- One email_logs row as written by EmailSender._log_email. -/
structure EmailLogRow where
  leadId : Option Nat
  campaignId : Option Nat
  toEmail : String
  subject : String
  status : String
  errorMessage : Option String
  sentAt : Option Nat
  openedAt : Option Nat
  repliedAt : Option Nat
deriving DecidableEq

/-- The result dictionary of EmailSender.send_email. -/
structure SendResult where
  success : Bool
  toEmail : String
  error : Option String
  sentAt : Option Nat
deriving DecidableEq

/-- Observable outcome of one send call: new sender state, the result
dictionary, the log rows appended, and whether the mail server was
contacted at all. -/
structure SendOut where
  st : SenderState
  result : SendResult
  logs : List EmailLogRow
  smtpContacted : Bool
deriving DecidableEq

/-- EmailSender._check_daily_limit: reset the counter when the date has
advanced past the stored reset date, then compare against the cap. -/
def checkDailyLimit (cfg : SenderConfig) (today : Nat) (st : SenderState) :
    SenderState × Bool :=
  let st1 := if st.lastReset < today then { dailySent := 0, lastReset := today } else st
  (st1, decide (st1.dailySent < cfg.dailySendLimit))

/-- A failed send_email result (no sent_at stamp). -/
def mkFailResult (toEmail err : String) : SendResult :=
  { success := false, toEmail := toEmail, error := some err, sentAt := none }

/-- EmailSender.send_email with the SMTP interaction outcome passed as an
oracle: refuse at the daily cap without touching the server and without
logging; reject missing recipient or subject likewise; otherwise attempt
the transmission, incrementing the counter and logging a sent row on
success, logging a failed row with the stringified error otherwise. -/
def sendEmail (cfg : SenderConfig) (today : Nat) (smtp : Except String Unit)
    (st : SenderState) (toEmail subject : String)
    (leadId campaignId : Option Nat) : SendOut :=
  let (st1, ok) := checkDailyLimit cfg today st
  if !ok then
    { st := st1, result := mkFailResult toEmail "Daily send limit reached",
      logs := [], smtpContacted := false }
  else if toEmail = "" || subject = "" then
    { st := st1, result := mkFailResult toEmail "Missing email or subject",
      logs := [], smtpContacted := false }
  else
    match smtp with
    | .ok _ =>
      { st := { st1 with dailySent := st1.dailySent + 1 },
        result := { success := true, toEmail := toEmail, error := none, sentAt := some today },
        logs := [{ leadId := leadId, campaignId := campaignId, toEmail := toEmail,
                   subject := subject, status := "sent", errorMessage := none,
                   sentAt := some today, openedAt := none, repliedAt := none }],
        smtpContacted := true }
    | .error e =>
      { st := st1, result := mkFailResult toEmail e,
        logs := [{ leadId := leadId, campaignId := campaignId, toEmail := toEmail,
                   subject := subject, status := "failed", errorMessage := some e,
                   sentAt := none, openedAt := none, repliedAt := none }],
        smtpContacted := true }

/-- EmailSender.send_template_email: render, then send; a rendering failure
is returned as a failed result with the rendering error, without contacting
the mail server and without writing any log row. -/
def sendTemplateEmail (cfg : SenderConfig) (companyInfo : VarMap) (today : Nat)
    (smtp : Except String Unit) (st : SenderState) (toEmail : String)
    (templateName : String) (vars : VarMap)
    (leadId campaignId : Option Nat) : SendOut :=
  match renderTemplate companyInfo templateName vars with
  | .error e =>
    { st := st, result := mkFailResult toEmail e, logs := [], smtpContacted := false }
  | .ok (subject, _body) =>
    sendEmail cfg today smtp st toEmail subject leadId campaignId

/- ===================== Campaign Manager (outreach/email_sender.py) ===================== -/

/-- A leads-table row as the campaign loop reads and writes it. -/
structure LeadRow where
  id : Nat
  companyName : String
  contactName : Option String
  email : Option String
  status : String
  lastContacted : Option Nat
deriving DecidableEq

/-- An email_campaigns row. -/
structure CampaignRow where
  id : Nat
  name : String
  templateName : String
  status : String
  totalRecipients : Nat
  sentCount : Nat
  startedAt : Option Nat
  completedAt : Option Nat
deriving DecidableEq

/-- The database state the campaign manager touches. -/
structure DB where
  leads : List LeadRow
  campaigns : List CampaignRow
  logs : List EmailLogRow
deriving DecidableEq

/-- session.query(Lead).get(lead_id). -/
def findLead (db : DB) (leadId : Nat) : Option LeadRow :=
  db.leads.find? (fun l => l.id == leadId)

/-- session.query(EmailCampaign).get(campaign_id). -/
def findCampaign (db : DB) (campaignId : Nat) : Option CampaignRow :=
  db.campaigns.find? (fun c => c.id == campaignId)

/-- Update every lead row with the given id in place. -/
def updateLead (db : DB) (leadId : Nat) (f : LeadRow → LeadRow) : DB :=
  { db with leads := db.leads.map (fun l => if l.id == leadId then f l else l) }

/-- Update every campaign row with the given id in place. -/
def updateCampaign (db : DB) (campaignId : Nat) (f : CampaignRow → CampaignRow) : DB :=
  { db with campaigns := db.campaigns.map (fun c => if c.id == campaignId then f c else c) }

/-- A fresh autoincrement id for the campaigns table. -/
def freshCampaignId (db : DB) : Nat :=
  (db.campaigns.foldr (fun c m => max c.id m) 0) + 1

/-- CampaignManager.create_campaign: insert a campaign row in draft status
with total_recipients = len(lead_ids); returns the new id. -/
def createCampaign (db : DB) (name templateName : String)
    (leadIds : Option (List Nat)) : Nat × DB :=
  let cid := freshCampaignId db
  let row : CampaignRow :=
    { id := cid, name := name, templateName := templateName, status := "draft",
      totalRecipients := (match leadIds with | some ids => ids.length | none => 0),
      sentCount := 0, startedAt := none, completedAt := none }
  (cid, { db with campaigns := db.campaigns ++ [row] })

/-- Python (x or default) on an optional string: empty and missing both fall
back to the default. -/
def pyOr (o : Option String) (dflt : String) : String :=
  match o with
  | none => dflt
  | some s => if s = "" then dflt else s

/-- Accumulated state of the run_campaign loop. -/
structure LoopState where
  db : DB
  sst : SenderState
  sent : Nat
  failed : Nat
  skipped : Nat
  senderCalls : List Nat
  delays : Nat
deriving DecidableEq

/-- One iteration of the run_campaign loop over (index, lead id): a missing
lead or a falsy email is skipped with no sender call and no delay;
otherwise the sender runs with per-lead variables (extra variables taking
precedence), its logs are appended, a success marks the lead contacted,
and the inter-send sleep happens only before the last index. -/
def campaignStep (cfg : SenderConfig) (companyInfo : VarMap) (campaignId : Nat)
    (templateName : String) (extraVars : VarMap) (today : Nat)
    (smtp : Nat → Except String Unit) (n : Nat)
    (ls : LoopState) (p : Nat × Nat) : LoopState :=
  match findLead ls.db p.2 with
  | none => { ls with skipped := ls.skipped + 1 }
  | some lead =>
    if lead.email.getD "" = "" then { ls with skipped := ls.skipped + 1 }
    else
      let vars : VarMap :=
        extraVars ++
          [("contact_name", .str (pyOr lead.contactName "Sir/Madam")),
           ("their_company", .str lead.companyName),
           ("company_name", .str lead.companyName)]
      let out := sendTemplateEmail cfg companyInfo today (smtp p.1) ls.sst
        (lead.email.getD "") templateName vars (some p.2) (some campaignId)
      let db1 : DB := { ls.db with logs := ls.db.logs ++ out.logs }
      let db2 := if out.result.success then
          updateLead db1 p.2 (fun l => { l with status := "contacted", lastContacted := some today })
        else db1
      { db := db2, sst := out.st,
        sent := if out.result.success then ls.sent + 1 else ls.sent,
        failed := if out.result.success then ls.failed else ls.failed + 1,
        skipped := ls.skipped,
        senderCalls := ls.senderCalls ++ [p.2],
        delays := if p.1 + 1 < n then ls.delays + 1 else ls.delays }

/-- The campaign run summary dictionary. -/
structure CampaignResults where
  total : Nat
  sent : Nat
  failed : Nat
  skipped : Nat
deriving DecidableEq

/-- Observable outcome of run_campaign, with the sequence of campaign
status writes, the lead ids handed to the sender, and the number of
inter-send sleeps recorded alongside the final database. -/
structure RunOut where
  db : DB
  sst : SenderState
  results : CampaignResults
  senderCalls : List Nat
  delays : Nat
  statusTrace : List String
deriving DecidableEq

/-- CampaignManager.run_campaign: mark the campaign active (stamping
started_at), iterate the lead ids in order through campaignStep, then mark
it completed (stamping completed_at and the final sent count); the smtp
oracle gives the transmission outcome of each loop iteration. -/
def runCampaign (cfg : SenderConfig) (companyInfo : VarMap) (db : DB)
    (sst : SenderState) (campaignId : Nat) (leadIds : List Nat)
    (templateName : String) (extraVars : VarMap) (today : Nat)
    (smtp : Nat → Except String Unit) : RunOut :=
  let found := (findCampaign db campaignId).isSome
  let db1 := if found then
      updateCampaign db campaignId
        (fun c => { c with status := "active", startedAt := some today })
    else db
  let init : LoopState :=
    { db := db1, sst := sst, sent := 0, failed := 0, skipped := 0,
      senderCalls := [], delays := 0 }
  let fin := leadIds.enum.foldl
    (campaignStep cfg companyInfo campaignId templateName extraVars today smtp leadIds.length)
    init
  let db2 := if found then
      updateCampaign fin.db campaignId
        (fun c => { c with status := "completed", completedAt := some today, sentCount := fin.sent })
    else fin.db
  { db := db2, sst := fin.sst,
    results := { total := leadIds.length, sent := fin.sent,
                 failed := fin.failed, skipped := fin.skipped },
    senderCalls := fin.senderCalls, delays := fin.delays,
    statusTrace := if found then ["active", "completed"] else [] }

/-- Campaign statistics recomputed from the log rows. -/
structure CampaignStats where
  campaignName : String
  status : String
  totalRecipients : Nat
  sent : Nat
  failed : Nat
  opened : Nat
  replied : Nat
  startedAt : Option Nat
  completedAt : Option Nat
deriving DecidableEq

/-- CampaignManager.get_campaign_stats: none when the campaign is missing,
otherwise counts recomputed by scanning the campaign log rows. -/
def getCampaignStats (db : DB) (campaignId : Nat) : Option CampaignStats :=
  match findCampaign db campaignId with
  | none => none
  | some c =>
    let logs := db.logs.filter (fun lg => lg.campaignId == some campaignId)
    some { campaignName := c.name, status := c.status,
           totalRecipients := c.totalRecipients,
           sent := logs.countP (fun lg => lg.status == "sent"),
           failed := logs.countP (fun lg => lg.status == "failed"),
           opened := logs.countP (fun lg => lg.openedAt.isSome),
           replied := logs.countP (fun lg => lg.repliedAt.isSome),
           startedAt := c.startedAt, completedAt := c.completedAt }

/-- The predicate deciding that the campaign loop skips a lead id: no row,
or a missing or empty stored email. -/
def skippedLead (db : DB) (leadId : Nat) : Bool :=
  match findLead db leadId with
  | none => true
  | some l => l.email.getD "" == ""

/-- The observation of the leads table the skip decision depends on: presence
of the row and its stored email. -/
def emailView (db : DB) (leadId : Nat) : Option (Option String) :=
  (findLead db leadId).map (fun l => l.email)

/- ===================== Concrete scenario data ===================== -/

/-- Substring check on strings (Python needle in hay). -/
def containsSubstr (needle hay : String) : Bool := containsSub needle.data hay.data

/-- True when the render result is a success whose body contains the needle. -/
def renderOkBodyContains (res : Except String (String × String)) (needle : String) : Bool :=
  match res with
  | .ok (_, b) => containsSubstr needle b
  | .error _ => false

/-- The exact variable mapping of the end-to-end render scenario. -/
def c6Vars : VarMap := [
  ("contact_name", .str "John"),
  ("their_company", .str "Acme"),
  ("company_name", .str "Acme"),
  ("specialization", .list ["T-shirts", "Hoodies"]),
  ("certifications", .list ["ISO 9001"])]

/-- The scenario variables extended with the four company-profile keys the
template references but COMPANY_INFO never defines. -/
def c6VarsFull : VarMap := c6Vars ++ [
  ("our_company", .str "Your Textile Company"),
  ("sender_name", .str "Export Manager"),
  ("sender_title", .str "Export Department"),
  ("contact_info", .str "export@yourcompany.com")]

/-- A lead dictionary with a website and no email data yet. -/
def c8Lead : EnrichLead :=
  { website := some "acme.com", email := none, emailVerified := none,
    emailType := none, allEmails := none }

/-- A database with one emailable lead and one draft campaign whose template
name is unknown, used to compare the failed counter with the log-derived
failed count. -/
def dbC10 : DB :=
  { leads := [{ id := 1, companyName := "Acme", contactName := none,
                email := some "a@b.com", status := "new", lastContacted := none }],
    campaigns := [{ id := 1, name := "camp", templateName := "nope", status := "draft",
                    totalRecipients := 1, sentCount := 0, startedAt := none,
                    completedAt := none }],
    logs := [] }

/-- A database with a single draft campaign and no leads. -/
def dbC9 : DB :=
  { leads := [],
    campaigns := [{ id := 1, name := "camp", templateName := "follow_up_1", status := "draft",
                    totalRecipients := 0, sentCount := 0, startedAt := none,
                    completedAt := none }],
    logs := [] }

/-- A company-info mapping supplying every placeholder of follow_up_1. -/
def followUpInfo : VarMap := [
  ("contact_name", .str "John"),
  ("their_company", .str "Acme"),
  ("monthly_capacity", .str "200,000 pieces"),
  ("certifications", .str "ISO 9001"),
  ("sender_name", .str "Export Manager"),
  ("our_company", .str "Your Textile Company")]

/- ===================== Helper lemmas ===================== -/

/-- A successful association-list lookup returns a stored value. -/
lemma lookup_mem_snd {α β : Type} [BEq α] :
    ∀ (l : List (α × β)) (a : α) (b : β), List.lookup a l = some b → b ∈ l.map Prod.snd := by
  intro l
  induction l with
  | nil => intro a b h; simp [List.lookup] at h
  | cons p t ih =>
    intro a b h
    rw [List.lookup] at h
    by_cases hk : a == p.1
    · simp [hk] at h
      simp [← h]
    · simp [hk] at h
      simpa using Or.inr (ih a b h)

set_option maxRecDepth 100000 in
/-- Every template in the TEMPLATES table has well-formed subject and body
format strings. -/
lemma templates_wellFormed :
    ∀ t ∈ TEMPLATES.map Prod.snd, (parseFormat t.subject).isSome ∧ (parseFormat t.body).isSome := by
  decide

/-- Missing referenced field forces substParts to fail with a missing key. -/
lemma substParts_error_of_missing (m : VarMap) :
    ∀ parts : List FormatPart, (∃ k ∈ partFields parts, lookupVar m k = none) →
      ∃ k, lookupVar m k = none ∧ substParts m parts = .error (.missingKey k) := by
  intro parts
  induction parts with
  | nil => intro h; simp [partFields] at h
  | cons p ps ih =>
    intro h
    cases p with
    | lit s =>
      have h2 : ∃ k ∈ partFields ps, lookupVar m k = none := by
        simpa [partFields] using h
      obtain ⟨k, hk, herr⟩ := ih h2
      exact ⟨k, hk, by simp [substParts, herr, Except.map]⟩
    | field k0 =>
      cases hl : lookupVar m k0 with
      | none => exact ⟨k0, hl, by simp [substParts, hl]⟩
      | some v =>
        have h2 : ∃ k ∈ partFields ps, lookupVar m k = none := by
          simp only [partFields, List.filterMap_cons] at h
          obtain ⟨k, hk, hnone⟩ := h
          simp at hk
          rcases hk with hk | hk
          · rw [hk] at hnone; rw [hnone] at hl; cases hl
          · exact ⟨k, by simpa [partFields] using hk, hnone⟩
        obtain ⟨k, hk, herr⟩ := ih h2
        exact ⟨k, hk, by simp [substParts, hl, herr, Except.map]⟩

/-- When every referenced field is present, substParts succeeds. -/
lemma substParts_ok_of_present (m : VarMap) :
    ∀ parts : List FormatPart, (∀ k ∈ partFields parts, (lookupVar m k).isSome) →
      ∃ s, substParts m parts = .ok s := by
  intro parts
  induction parts with
  | nil => intro _; exact ⟨"", rfl⟩
  | cons p ps ih =>
    intro h
    cases p with
    | lit s =>
      obtain ⟨r, hr⟩ := ih (by intro k hk; exact h k (by simpa [partFields] using hk))
      exact ⟨String.mk s ++ r, by simp [substParts, hr, Except.map]⟩
    | field k0 =>
      have hk0 : (lookupVar m k0).isSome := h k0 (by simp [partFields])
      cases hl : lookupVar m k0 with
      | none => rw [hl] at hk0; cases hk0
      | some v =>
        obtain ⟨r, hr⟩ := ih (by
          intro k hk
          exact h k (by simp [partFields, List.filterMap_cons]; right; simpa [partFields] using hk))
        exact ⟨tvalToString v ++ r, by simp [substParts, hl, hr, Except.map]⟩

/-- The state component of the daily-limit check: reset to zero exactly when
the date advanced. -/
lemma checkDailyLimit_fst (cfg : SenderConfig) (today : Nat) (st : SenderState) :
    (checkDailyLimit cfg today st).1.dailySent =
      if st.lastReset < today then 0 else st.dailySent := by
  simp only [checkDailyLimit]
  split <;> rfl

/-- Case analysis of send_email: either it succeeds under the cap with the
counter incremented once, or it fails with the post-reset state unchanged. -/
lemma sendEmail_cases (cfg : SenderConfig) (today : Nat) (smtp : Except String Unit)
    (st : SenderState) (toEmail subject : String) (leadId campaignId : Option Nat) :
    ((sendEmail cfg today smtp st toEmail subject leadId campaignId).result.success = true ∧
      (sendEmail cfg today smtp st toEmail subject leadId campaignId).st.dailySent =
        (checkDailyLimit cfg today st).1.dailySent + 1 ∧
      (checkDailyLimit cfg today st).1.dailySent < cfg.dailySendLimit) ∨
    ((sendEmail cfg today smtp st toEmail subject leadId campaignId).result.success = false ∧
      (sendEmail cfg today smtp st toEmail subject leadId campaignId).st =
        (checkDailyLimit cfg today st).1) := by
  rcases hck : checkDailyLimit cfg today st with ⟨st1, ok⟩
  have hpair := hck
  simp only [checkDailyLimit] at hpair
  have h1 : (if st.lastReset < today then ({ dailySent := 0, lastReset := today } : SenderState) else st) = st1 :=
    congrArg Prod.fst hpair
  have h2 : decide (st1.dailySent < cfg.dailySendLimit) = ok := by
    rw [← h1]; exact congrArg Prod.snd hpair
  simp only [sendEmail, hck]
  cases ok with
  | false => right; simp [mkFailResult]
  | true =>
    simp only [Bool.not_true]
    by_cases he : toEmail = "" || subject = ""
    · right; simp [he, mkFailResult]
    · cases smtp with
      | ok u =>
        left
        have hlt : st1.dailySent < cfg.dailySendLimit := of_decide_eq_true h2
        simp [he, hlt]
      | error e => right; simp [he, mkFailResult]

/- ===================== Claim theorems ===================== -/

/-- C1: on the same day, once the daily counter has reached the configured
daily_send_limit, send_email returns success=false with the daily-limit
error, makes no SMTP contact, writes no log and leaves the state unchanged;
moreover the counter grows only on a successful send (otherwise it stays at
its post-reset value), so it never exceeds the cap. -/
theorem send_email_daily_cap (cfg : SenderConfig) (today : Nat) (smtp : Except String Unit)
    (st : SenderState) (toEmail subject : String) (leadId campaignId : Option Nat) :
    (today = st.lastReset → cfg.dailySendLimit ≤ st.dailySent →
      sendEmail cfg today smtp st toEmail subject leadId campaignId =
        { st := st, result := mkFailResult toEmail "Daily send limit reached",
          logs := [], smtpContacted := false }) ∧
    ((sendEmail cfg today smtp st toEmail subject leadId campaignId).result.success = false →
      (sendEmail cfg today smtp st toEmail subject leadId campaignId).st.dailySent = st.dailySent ∨
      (sendEmail cfg today smtp st toEmail subject leadId campaignId).st.dailySent = 0) ∧
    ((sendEmail cfg today smtp st toEmail subject leadId campaignId).result.success = true →
      (sendEmail cfg today smtp st toEmail subject leadId campaignId).st.dailySent =
        (if st.lastReset < today then 0 else st.dailySent) + 1) ∧
    (st.dailySent ≤ cfg.dailySendLimit →
      (sendEmail cfg today smtp st toEmail subject leadId campaignId).st.dailySent ≤
        cfg.dailySendLimit) := by
  have hfst := checkDailyLimit_fst cfg today st
  have hcases := sendEmail_cases cfg today smtp st toEmail subject leadId campaignId
  refine ⟨?_, ?_, ?_, ?_⟩
  · intro hsame hcap
    have hr : ¬ st.lastReset < today := by omega
    have hc : ¬ st.dailySent < cfg.dailySendLimit := by omega
    simp [sendEmail, checkDailyLimit, hr, hc]
  · intro hfail
    rcases hcases with ⟨hs, _, _⟩ | ⟨_, hst⟩
    · rw [hfail] at hs; cases hs
    · rw [hst, hfst]
      by_cases hr : st.lastReset < today
      · right; simp [hr]
      · left; simp [hr]
  · intro hsucc
    rcases hcases with ⟨_, hinc, _⟩ | ⟨hf, _⟩
    · rw [hinc, hfst]
    · rw [hsucc] at hf; cases hf
  · intro hle
    rcases hcases with ⟨_, hinc, hlt⟩ | ⟨_, hst⟩
    · rw [hinc]
      rw [hfst] at hlt
      omega
    · rw [hst, hfst]
      by_cases hr : st.lastReset < today
      · simp [hr]
      · simp [hr]; omega

/-- Closed witness for the daily-cap theorem at a concrete configuration:
cap 2, counter already 2 on the same day. -/
theorem send_email_daily_cap_witness :
    sendEmail { dailySendLimit := 2 } 5 (.ok ()) { dailySent := 2, lastReset := 5 }
        "a@b.c" "subject" none none =
      { st := { dailySent := 2, lastReset := 5 },
        result := mkFailResult "a@b.c" "Daily send limit reached",
        logs := [], smtpContacted := false } ∧
    (sendEmail { dailySendLimit := 2 } 5 (.ok ()) { dailySent := 2, lastReset := 5 }
        "a@b.c" "subject" none none).st.dailySent ≤ 2 := by
  have h := send_email_daily_cap { dailySendLimit := 2 } 5 (.ok ())
    { dailySent := 2, lastReset := 5 } "a@b.c" "subject" none none
  exact ⟨h.1 rfl (by decide), h.2.2.2 (by decide)⟩

/-- C4: EmailValidator.validate runs the library syntax check strictly before
any DNS lookup: a syntactically invalid address is rejected with the format
checker reason and no MX query happens; a syntactically valid address whose
MX resolution finds nothing or raises becomes (false, no-MX message) after
one MX query (fail closed). -/
theorem validate_format_before_mx (fc : String → Except String String)
    (mx : String → Except String Unit) (email : String) :
    (∀ e, fc email = .error e →
      validate fc mx email = { isValid := false, message := e, mxQueried := false }) ∧
    (∀ norm, fc email = .ok norm → checkMxRecord mx (pyDomainOf norm) = false →
      validate fc mx email =
        { isValid := false, message := "Domain has no MX records", mxQueried := true }) := by
  constructor
  · intro e he
    simp [validate, he]
  · intro norm hn hmx
    simp [validate, hn, hmx]

/-- Closed witness for the validator theorem: a format-rejected address and a
format-valid address whose resolver raises. -/
theorem validate_format_before_mx_witness :
    validate (fun _ => .error "bad syntax") (fun _ => .ok ()) "not-an-email" =
      { isValid := false, message := "bad syntax", mxQueried := false } ∧
    validate (fun s => .ok s) (fun _ => .error "The DNS query name does not exist") "x@y.test" =
      { isValid := false, message := "Domain has no MX records", mxQueried := true } := by
  have h1 := validate_format_before_mx (fun _ => .error "bad syntax") (fun _ => .ok ()) "not-an-email"
  have h2 := validate_format_before_mx (fun s => .ok s)
    (fun _ => .error "The DNS query name does not exist") "x@y.test"
  exact ⟨h1.1 "bad syntax" rfl, h2.2 "x@y.test" rfl (by decide)⟩

/-- C3: render_template fails with the template-not-found error on an unknown
name, and fails with a missing-variable error whenever some placeholder of
the template subject or body has no key in the merged (post-processed)
mapping; being an error, no partially substituted subject/body pair is
returned in either case. -/
theorem render_template_failure_modes (companyInfo : VarMap) (name : String) (vars : VarMap) :
    (List.lookup name TEMPLATES = none →
      renderTemplate companyInfo name vars = .error (notFoundMsg name)) ∧
    (∀ tpl, List.lookup name TEMPLATES = some tpl →
      (∃ k ∈ templatePlaceholders tpl, lookupVar (processVars companyInfo vars) k = none) →
      ∃ k, lookupVar (processVars companyInfo vars) k = none ∧
        renderTemplate companyInfo name vars = .error (missingVarMsg k)) := by
  constructor
  · intro h
    simp [renderTemplate, h]
  · intro tpl hlk hmiss
    obtain ⟨hs, hb⟩ := templates_wellFormed tpl (lookup_mem_snd TEMPLATES name tpl hlk)
    obtain ⟨sp, hsp⟩ := Option.isSome_iff_exists.mp hs
    obtain ⟨bp, hbp⟩ := Option.isSome_iff_exists.mp hb
    by_cases hsubj : ∃ k ∈ partFields sp, lookupVar (processVars companyInfo vars) k = none
    · obtain ⟨k, hk, herr⟩ := substParts_error_of_missing (processVars companyInfo vars) sp hsubj
      refine ⟨k, hk, ?_⟩
      simp [renderTemplate, hlk, pyFormat, parseFormat, hsp, herr, fmtErrMsg]
      rw [show parseFmt none tpl.subject.data = some sp from hsp]
      simp [herr, fmtErrMsg]
    · push_neg at hsubj
      have hpres : ∀ k ∈ partFields sp, (lookupVar (processVars companyInfo vars) k).isSome := by
        intro k hk
        cases hc : lookupVar (processVars companyInfo vars) k with
        | none => exact absurd hc (hsubj k hk)
        | some v => rfl
      obtain ⟨s, hsok⟩ := substParts_ok_of_present (processVars companyInfo vars) sp hpres
      have hbody : ∃ k ∈ partFields bp, lookupVar (processVars companyInfo vars) k = none := by
        obtain ⟨k, hk, hnone⟩ := hmiss
        rw [templatePlaceholders, hsp, hbp] at hk
        simp only [Option.getD_some, List.mem_append] at hk
        rcases hk with hk | hk
        · exact absurd hnone (hsubj k hk)
        · exact ⟨k, hk, hnone⟩
      obtain ⟨k, hk, herr⟩ := substParts_error_of_missing (processVars companyInfo vars) bp hbody
      refine ⟨k, hk, ?_⟩
      simp only [renderTemplate, hlk, pyFormat, parseFormat]
      rw [show parseFmt none tpl.subject.data = some sp from hsp,
          show parseFmt none tpl.body.data = some bp from hbp]
      simp [hsok, herr, fmtErrMsg]

set_option maxRecDepth 100000 in
/-- Closed witness for the rendering-failure theorem: an unknown name, and a
known template rendered against an empty mapping. -/
theorem render_template_failure_modes_witness :
    renderTemplate [] "nope" [] = .error (notFoundMsg "nope") ∧
    (∃ k, lookupVar (processVars [] []) k = none ∧
      renderTemplate [] "follow_up_1" [] = .error (missingVarMsg k)) := by
  refine ⟨(render_template_failure_modes [] "nope" []).1 rfl, ?_⟩
  exact (render_template_failure_modes [] "follow_up_1" []).2 _ rfl (by decide)

/-- The loop index is below the keyword count exactly when some keyword is
contained in the mailbox name. -/
lemma getPriorityAux_lt_iff (mbox : List Char) :
    ∀ ps : List String, getPriorityAux mbox ps < ps.length ↔
      ∃ p ∈ ps, containsSub p.data mbox = true := by
  intro ps
  induction ps with
  | nil => simp [getPriorityAux]
  | cons p t ih =>
    rw [getPriorityAux]
    by_cases hp : containsSub p.data mbox = true
    · simp [hp, Nat.succ_pos]
    · rw [if_neg hp]
      simp only [List.length_cons, Nat.add_lt_add_iff_right, ih, List.mem_cons]
      constructor
      · rintro ⟨q, hq, hc⟩; exact ⟨q, Or.inr hq, hc⟩
      · rintro ⟨q, hq | hq, hc⟩
        · rw [hq] at hc; exact absurd hc hp
        · exact ⟨q, hq, hc⟩

/-- Membership in a stable insertion. -/
lemma mem_insortByPriority (x a : String) :
    ∀ l : List String, a ∈ insortByPriority x l ↔ a = x ∨ a ∈ l := by
  intro l
  induction l with
  | nil => simp [insortByPriority]
  | cons y ys ih =>
    rw [insortByPriority]
    by_cases hle : getPriority x ≤ getPriority y
    · simp [hle]
    · rw [if_neg hle]
      simp [ih]
      tauto

/-- Stable insertion preserves sortedness by the priority key. -/
lemma insortByPriority_pairwise (x : String) :
    ∀ l : List String, l.Pairwise (fun a b => getPriority a ≤ getPriority b) →
      (insortByPriority x l).Pairwise (fun a b => getPriority a ≤ getPriority b) := by
  intro l
  induction l with
  | nil => intro _; simp [insortByPriority]
  | cons y ys ih =>
    intro h
    cases h with
    | cons h1 h2 =>
      rw [insortByPriority]
      by_cases hle : getPriority x ≤ getPriority y
      · rw [if_pos hle]
        refine List.Pairwise.cons ?_ (List.Pairwise.cons h1 h2)
        intro z hz
        rcases List.mem_cons.mp hz with hz | hz
        · rw [hz]; exact hle
        · exact le_trans hle (h1 z hz)
      · rw [if_neg hle]
        refine List.Pairwise.cons ?_ (ih h2)
        intro z hz
        rcases (mem_insortByPriority x z ys).mp hz with hz | hz
        · rw [hz]; exact le_of_not_le hle
        · exact h1 z hz

/-- Stable insertion is a permutation of consing. -/
lemma insortByPriority_perm (x : String) :
    ∀ l : List String, (insortByPriority x l).Perm (x :: l) := by
  intro l
  induction l with
  | nil => simp [insortByPriority]
  | cons y ys ih =>
    rw [insortByPriority]
    by_cases hle : getPriority x ≤ getPriority y
    · rw [if_pos hle]
    · rw [if_neg hle]
      exact (List.Perm.cons y ih).trans (List.Perm.swap x y ys)

/-- Elements of a given priority in a stable insertion: the inserted element
goes in front of the existing ones of its own priority bucket only when it
was inserted, matching Python sorted stability. -/
lemma insortByPriority_filter (x : String) (k : Nat) :
    ∀ l : List String,
      (insortByPriority x l).filter (fun e => getPriority e == k) =
        if getPriority x = k then x :: l.filter (fun e => getPriority e == k)
        else l.filter (fun e => getPriority e == k) := by
  intro l
  induction l with
  | nil => by_cases h : getPriority x = k <;> simp [insortByPriority, h]
  | cons y ys ih =>
    rw [insortByPriority]
    by_cases hle : getPriority x ≤ getPriority y
    · rw [if_pos hle]
      by_cases h : getPriority x = k <;> simp [List.filter_cons, h]
    · rw [if_neg hle]
      simp only [List.filter_cons]
      by_cases hy : getPriority y = k
      · have hx : ¬ getPriority x = k := by
          intro hx
          exact hle (by rw [hx, hy])
        simp [hy, hx, ih, hx]
      · by_cases h : getPriority x = k <;> simp [hy, h, ih]

/-- The whole insertion sort is sorted by priority. -/
lemma prioritizeEmails_pairwise (l : List String) :
    (prioritizeEmails l).Pairwise (fun a b => getPriority a ≤ getPriority b) := by
  induction l with
  | nil => simp [prioritizeEmails]
  | cons x xs ih => exact insortByPriority_pairwise x _ ih

/-- The whole insertion sort is stable: each priority bucket keeps the input
order. -/
lemma prioritizeEmails_filter (k : Nat) :
    ∀ l : List String,
      (prioritizeEmails l).filter (fun e => getPriority e == k) =
        l.filter (fun e => getPriority e == k) := by
  intro l
  induction l with
  | nil => rfl
  | cons x xs ih =>
    show (insortByPriority x (prioritizeEmails xs)).filter _ = _
    rw [insortByPriority_filter, List.filter_cons]
    by_cases h : getPriority x = k <;> simp [h, ih]

/-- The whole insertion sort permutes its input. -/
lemma prioritizeEmails_perm (l : List String) : (prioritizeEmails l).Perm l := by
  induction l with
  | nil => simp [prioritizeEmails]
  | cons x xs ih =>
    exact ((insortByPriority_perm x (prioritizeEmails xs)).trans (ih.cons x))

/-- C5: _prioritize_emails returns a permutation of its input that is sorted
by the priority key (keyword-bearing mailbox names, whose key is the index
of the first matching keyword in the fixed list, come before keyword-free
ones, whose key is the list length); each priority bucket preserves input
order (stability); and on the concrete candidate list sales@x.com ranks
before a@x.com and random@x.com, which keep their input order. -/
theorem prioritize_emails_spec (emails : List String) :
    (prioritizeEmails emails).Pairwise (fun a b => getPriority a ≤ getPriority b) ∧
    (∀ k, (prioritizeEmails emails).filter (fun e => getPriority e == k) =
      emails.filter (fun e => getPriority e == k)) ∧
    (prioritizeEmails emails).Perm emails ∧
    (∀ e, getPriority e < priorityPrefixes.length ↔
      ∃ p ∈ priorityPrefixes, containsSub p.data (lowerStr (mailboxName e)).data = true) ∧
    prioritizeEmails ["a@x.com", "sales@x.com", "random@x.com"] =
      ["sales@x.com", "a@x.com", "random@x.com"] := by
  refine ⟨prioritizeEmails_pairwise emails, fun k => prioritizeEmails_filter k emails,
    prioritizeEmails_perm emails, fun e => getPriorityAux_lt_iff _ priorityPrefixes, ?_⟩
  decide

set_option maxRecDepth 200000 in
/-- C6 counterexample: the end-to-end scenario render of initial_contact_en
with exactly the claimed variables does not succeed; COMPANY_INFO supplies
no our_company key (its key is name), so rendering fails with the
missing-variable error for our_company and no subject/body is produced. -/
theorem render_initial_contact_en_counterexample :
    renderTemplate COMPANY_INFO "initial_contact_en" c6Vars =
      .error (missingVarMsg "our_company") := by
  rfl

set_option maxRecDepth 200000 in
/-- C6 (amended): the scenario render fails with the missing-variable error
for our_company, because COMPANY_INFO defines none of our_company,
sender_name, sender_title, contact_info; when those four keys are supplied
in addition, rendering succeeds and the body contains the literal bulleted
lines for T-shirts and Hoodies and the certifications rendered as ISO 9001. -/
theorem render_initial_contact_en_amended :
    renderTemplate COMPANY_INFO "initial_contact_en" c6Vars =
      .error (missingVarMsg "our_company") ∧
    renderOkBodyContains (renderTemplate COMPANY_INFO "initial_contact_en" c6VarsFull)
      "• T-shirts" = true ∧
    renderOkBodyContains (renderTemplate COMPANY_INFO "initial_contact_en" c6VarsFull)
      "• Hoodies" = true ∧
    renderOkBodyContains (renderTemplate COMPANY_INFO "initial_contact_en" c6VarsFull)
      "Our certifications include: ISO 9001" = true := by
  refine ⟨by rfl, by decide, by decide, by decide⟩

/-- C2: the single-threaded search-and-save loop inserts at most one row per
(company_name, website) pair, and none at all when the pair already exists:
the final count of rows with a pair is exactly one if the pair was absent
and some scraped record carries it, and the initial count otherwise. -/
theorem search_save_dedup (country city query : Option String) (db : List LeadRowS)
    (leads : List LeadData) (cn w : Option String) :
    keyCount cn w (saveLeads country city query db leads).1 =
      if keyCount cn w db = 0 ∧
          leads.any (fun d => d.companyName == cn && d.website == w) = true
      then 1 else keyCount cn w db := by
  induction leads generalizing db with
  | nil => simp [saveLeads]
  | cons d rest ih =>
    rw [saveLeads]
    by_cases hdup : db.any (rowMatches d.companyName d.website) = true
    · rw [if_pos hdup, ih db]
      by_cases hkey : (d.companyName == cn && d.website == w) = true
      · have hcw := (Bool.and_eq_true _ _).mp hkey
        have hcn : d.companyName = cn := beq_iff_eq.mp hcw.1
        have hw : d.website = w := beq_iff_eq.mp hcw.2
        have hne : ¬ keyCount cn w db = 0 := by
          rw [keyCount, List.countP_eq_zero]
          intro hall
          obtain ⟨r, hr, hrm⟩ := List.any_eq_true.mp hdup
          rw [hcn, hw] at hrm
          exact hall r hr hrm
        simp [hne]
      · have hany : (d :: rest).any (fun x => x.companyName == cn && x.website == w) =
            rest.any (fun x => x.companyName == cn && x.website == w) := by
          simp [List.any_cons, hkey]
        rw [hany]
    · rw [if_neg hdup]
      show keyCount cn w (saveLeads country city query
        (db ++ [mkLeadRow country city query d]) rest).1 = _
      rw [ih (db ++ [mkLeadRow country city query d])]
      by_cases hkey : (d.companyName == cn && d.website == w) = true
      · have hcw := (Bool.and_eq_true _ _).mp hkey
        have hcn : d.companyName = cn := beq_iff_eq.mp hcw.1
        have hw : d.website = w := beq_iff_eq.mp hcw.2
        have hz : keyCount cn w db = 0 := by
          rw [keyCount, List.countP_eq_zero]
          intro r hr hrm
          apply hdup
          refine List.any_eq_true.mpr ⟨r, hr, ?_⟩
          rw [hcn, hw]
          exact hrm
        have hdb1 : keyCount cn w (db ++ [mkLeadRow country city query d]) = 1 := by
          rw [keyCount, List.countP_append]
          rw [keyCount] at hz
          rw [hz]
          simp [List.countP_cons, rowMatches, mkLeadRow, hcn, hw]
        have hany : (d :: rest).any (fun x => x.companyName == cn && x.website == w) = true := by
          simp [List.any_cons, hkey]
        rw [hdb1, hz]
        simp [hany]
      · have hkf : (d.companyName == cn && d.website == w) = false := by
          revert hkey
          cases d.companyName == cn && d.website == w <;> simp
        have hdb1 : keyCount cn w (db ++ [mkLeadRow country city query d]) = keyCount cn w db := by
          rw [keyCount, List.countP_append, keyCount]
          have hrow : List.countP (rowMatches cn w) [mkLeadRow country city query d] = 0 := by
            simp [List.countP_cons, rowMatches, mkLeadRow, hkf]
          rw [hrow]
          omega
        have hany : (d :: rest).any (fun x => x.companyName == cn && x.website == w) =
            rest.any (fun x => x.companyName == cn && x.website == w) := by
          simp [List.any_cons, hkey]
        rw [hdb1, hany]

/-- C8 counterexample: with no website-derived candidates and a validation
oracle under which the sixth generated candidate (purchasing@acme.com) is
the first — and only — one to pass, enrich_lead accepts nothing and returns
the lead unchanged, because the code only validates generated[:5]. -/
theorem enrich_lead_counterexample :
    (generateEmailPatterns (getDomainFromWebsite "acme.com") none none).find?
        (fun e => e == "purchasing@acme.com") = some "purchasing@acme.com" ∧
    enrichLead (fun _ => []) (fun e => e == "purchasing@acme.com") c8Lead = c8Lead ∧
    (enrichLead (fun _ => []) (fun e => e == "purchasing@acme.com") c8Lead).email = none := by
  refine ⟨by decide, by decide, by decide⟩

/-- C8 (amended): for a lead with a non-empty website whose website-derived
discovery yields no candidates, enrich_lead validates only the first five
generated pattern candidates in priority order; it accepts the first of
those that validates, storing it with email_type generated and
email_verified false, and otherwise (no hit among the first five, or an
empty derived domain) returns the lead unchanged. -/
theorem enrich_lead_generated (finder : String → List String) (valid : String → Bool)
    (lead : EnrichLead) (w : String) (hw : lead.website = some w) (hne : w ≠ "")
    (hfound : finder w = []) :
    (getDomainFromWebsite w = "" → enrichLead finder valid lead = lead) ∧
    (getDomainFromWebsite w ≠ "" →
      (∀ e, ((generateEmailPatterns (getDomainFromWebsite w) none none).take 5).find? valid =
          some e →
        enrichLead finder valid lead =
          { lead with
              email := some e,
              emailVerified := some false,
              emailType := some "generated" }) ∧
      (((generateEmailPatterns (getDomainFromWebsite w) none none).take 5).find? valid = none →
        enrichLead finder valid lead = lead)) := by
  have hgd : lead.website.getD "" = w := by rw [hw]; rfl
  constructor
  · intro hd
    simp [enrichLead, hgd, hne, hfound, hd]
  · intro hd
    constructor
    · intro e he
      simp [enrichLead, hgd, hne, hfound, hd, he]
    · intro he
      simp [enrichLead, hgd, hne, hfound, hd, he]

/-- Closed witness for the amended enrichment theorem: sales@acme.com is the
third generated candidate and the first to validate, so it is accepted as a
generated, unverified address. -/
theorem enrich_lead_generated_witness :
    enrichLead (fun _ => []) (fun e => e == "sales@acme.com") c8Lead =
      { c8Lead with
          email := some "sales@acme.com",
          emailVerified := some false,
          emailType := some "generated" } := by
  have h := enrich_lead_generated (fun _ => []) (fun e => e == "sales@acme.com") c8Lead
    "acme.com" rfl (by decide) rfl
  exact (h.2 (by decide)).1 "sales@acme.com" (by decide)

/-- The skip decision only depends on the email view of the table. -/
lemma skippedLead_eq_of_emailView (db db' : DB) (leadId : Nat)
    (h : emailView db leadId = emailView db' leadId) :
    skippedLead db leadId = skippedLead db' leadId := by
  unfold skippedLead
  unfold emailView at h
  cases hfl : findLead db leadId with
  | none =>
    cases hfl' : findLead db' leadId with
    | none => rfl
    | some l => rw [hfl, hfl'] at h; cases h
  | some l =>
    cases hfl' : findLead db' leadId with
    | none => rw [hfl, hfl'] at h; cases h
    | some l' =>
      rw [hfl, hfl'] at h
      simp at h
      simp [h]

/-- A map preserving ids and emails preserves the email found for any id. -/
lemma find_map_pres (g : LeadRow → LeadRow) (hid : ∀ l, (g l).id = l.id)
    (hem : ∀ l, (g l).email = l.email) (q : Nat) :
    ∀ t : List LeadRow,
      ((t.map g).find? (fun l => l.id == q)).map (fun l => l.email) =
        (t.find? (fun l => l.id == q)).map (fun l => l.email) := by
  intro t
  induction t with
  | nil => rfl
  | cons a t ih =>
    rw [List.map_cons, List.find?_cons, List.find?_cons]
    simp only [hid]
    cases hc : (a.id == q) with
    | true => simp [hem]
    | false => exact ih

/-- An in-place lead update that keeps ids and emails keeps the email view. -/
lemma emailView_updateLead (db : DB) (lid : Nat) (f : LeadRow → LeadRow)
    (hid : ∀ l, (f l).id = l.id) (hem : ∀ l, (f l).email = l.email) (q : Nat) :
    emailView (updateLead db lid f) q = emailView db q := by
  unfold emailView updateLead findLead
  exact find_map_pres (fun l => if l.id == lid then f l else l)
    (fun l => by by_cases h : (l.id == lid) = true <;> simp [h, hid])
    (fun l => by by_cases h : (l.id == lid) = true <;> simp [h, hem]) q db.leads

/-- A skipped iteration only bumps the skipped counter. -/
lemma campaignStep_skip (cfg : SenderConfig) (companyInfo : VarMap) (campaignId : Nat)
    (templateName : String) (extraVars : VarMap) (today : Nat)
    (smtp : Nat → Except String Unit) (n : Nat) (ls : LoopState) (p : Nat × Nat)
    (h : skippedLead ls.db p.2 = true) :
    campaignStep cfg companyInfo campaignId templateName extraVars today smtp n ls p =
      { ls with skipped := ls.skipped + 1 } := by
  unfold campaignStep
  unfold skippedLead at h
  cases hfl : findLead ls.db p.2 with
  | none => rfl
  | some lead =>
    rw [hfl] at h
    simp at h
    simp [h]

/-- The non-skip branch of the loop body, written as one equation. -/
lemma campaignStep_nonskip_eq (cfg : SenderConfig) (companyInfo : VarMap) (campaignId : Nat)
    (templateName : String) (extraVars : VarMap) (today : Nat)
    (smtp : Nat → Except String Unit) (n : Nat) (ls : LoopState) (p : Nat × Nat)
    (lead : LeadRow) (hfl : findLead ls.db p.2 = some lead)
    (h : ¬ lead.email.getD "" = "") :
    campaignStep cfg companyInfo campaignId templateName extraVars today smtp n ls p =
      (fun out =>
        let dbLogs : DB := { ls.db with logs := ls.db.logs ++ out.logs }
        let db2 : DB :=
          if out.result.success then
            updateLead dbLogs p.2
              (fun l => { l with status := "contacted", lastContacted := some today })
          else dbLogs
        ({ db := db2,
           sst := out.st,
           sent := if out.result.success then ls.sent + 1 else ls.sent,
           failed := if out.result.success then ls.failed else ls.failed + 1,
           skipped := ls.skipped,
           senderCalls := ls.senderCalls ++ [p.2],
           delays := if p.1 + 1 < n then ls.delays + 1 else ls.delays } : LoopState))
        (sendTemplateEmail cfg companyInfo today (smtp p.1) ls.sst (lead.email.getD "")
          templateName
          (extraVars ++
            [("contact_name", .str (pyOr lead.contactName "Sir/Madam")),
             ("their_company", .str lead.companyName),
             ("company_name", .str lead.companyName)])
          (some p.2) (some campaignId)) := by
  unfold campaignStep
  rw [hfl]
  simp [h]

/-- A non-skipped iteration calls the sender on the lead id, keeps the
skipped counter, sleeps only before the last index, and touches neither the
campaigns table nor the email view of the leads table. -/
lemma campaignStep_effects (cfg : SenderConfig) (companyInfo : VarMap) (campaignId : Nat)
    (templateName : String) (extraVars : VarMap) (today : Nat)
    (smtp : Nat → Except String Unit) (n : Nat) (ls : LoopState) (p : Nat × Nat)
    (h : skippedLead ls.db p.2 = false) :
    (campaignStep cfg companyInfo campaignId templateName extraVars today smtp n ls p).skipped =
      ls.skipped ∧
    (campaignStep cfg companyInfo campaignId templateName extraVars today smtp n ls p).senderCalls =
      ls.senderCalls ++ [p.2] ∧
    (campaignStep cfg companyInfo campaignId templateName extraVars today smtp n ls p).delays =
      (if p.1 + 1 < n then ls.delays + 1 else ls.delays) ∧
    (campaignStep cfg companyInfo campaignId templateName extraVars today smtp n ls p).db.campaigns =
      ls.db.campaigns ∧
    (∀ q, emailView
      (campaignStep cfg companyInfo campaignId templateName extraVars today smtp n ls p).db q =
      emailView ls.db q) := by
  unfold skippedLead at h
  cases hfl : findLead ls.db p.2 with
  | none => rw [hfl] at h; simp at h
  | some lead =>
    rw [hfl] at h
    simp at h
    rw [campaignStep_nonskip_eq cfg companyInfo campaignId templateName extraVars today smtp n
      ls p lead hfl h]
    refine ⟨rfl, rfl, rfl, ?_, ?_⟩
    · cases hs : (sendTemplateEmail cfg companyInfo today (smtp p.1) ls.sst
          (lead.email.getD "") templateName
          (extraVars ++
            [("contact_name", .str (pyOr lead.contactName "Sir/Madam")),
             ("their_company", .str lead.companyName),
             ("company_name", .str lead.companyName)])
          (some p.2) (some campaignId)).result.success with
      | false => simp [hs]
      | true => simp [hs, updateLead]
    · intro q
      cases hs : (sendTemplateEmail cfg companyInfo today (smtp p.1) ls.sst
          (lead.email.getD "") templateName
          (extraVars ++
            [("contact_name", .str (pyOr lead.contactName "Sir/Madam")),
             ("their_company", .str lead.companyName),
             ("company_name", .str lead.companyName)])
          (some p.2) (some campaignId)).result.success with
      | false => simp only [hs, Bool.false_eq_true, if_false]; rfl
      | true =>
        simp only [hs, if_true]
        exact emailView_updateLead { ls.db with logs := ls.db.logs ++ _ } p.2
          (fun l => { l with status := "contacted", lastContacted := some today })
          (fun l => rfl) (fun l => rfl) q

/-- Folding the loop body over indexed lead ids: skips are counted against
the initial email view, sender calls are exactly the non-skipped ids in
order, sleeps happen only on non-skipped non-final indices, and the
campaigns table and the email view are untouched. -/
lemma campaignLoop_spec (cfg : SenderConfig) (companyInfo : VarMap) (campaignId : Nat)
    (templateName : String) (extraVars : VarMap) (today : Nat)
    (smtp : Nat → Except String Unit) (n : Nat) (db0 : DB) :
    ∀ (ps : List (Nat × Nat)) (ls : LoopState),
      (∀ q, emailView ls.db q = emailView db0 q) →
      ((ps.foldl (campaignStep cfg companyInfo campaignId templateName extraVars today smtp n)
          ls).skipped = ls.skipped + ps.countP (fun p => skippedLead db0 p.2)) ∧
      ((ps.foldl (campaignStep cfg companyInfo campaignId templateName extraVars today smtp n)
          ls).senderCalls =
        ls.senderCalls ++ (ps.filter (fun p => !skippedLead db0 p.2)).map Prod.snd) ∧
      ((ps.foldl (campaignStep cfg companyInfo campaignId templateName extraVars today smtp n)
          ls).delays =
        ls.delays + ps.countP (fun p => !skippedLead db0 p.2 && decide (p.1 + 1 < n))) ∧
      ((ps.foldl (campaignStep cfg companyInfo campaignId templateName extraVars today smtp n)
          ls).db.campaigns = ls.db.campaigns) ∧
      (∀ q, emailView
        (ps.foldl (campaignStep cfg companyInfo campaignId templateName extraVars today smtp n)
          ls).db q = emailView db0 q) := by
  intro ps
  induction ps with
  | nil =>
    intro ls hinv
    refine ⟨by simp, by simp, by simp, rfl, hinv⟩
  | cons p ps ih =>
    intro ls hinv
    rw [List.foldl_cons]
    have hsk : skippedLead ls.db p.2 = skippedLead db0 p.2 :=
      skippedLead_eq_of_emailView _ _ _ (hinv p.2)
    cases hskip : skippedLead db0 p.2 with
    | true =>
      have hstep := campaignStep_skip cfg companyInfo campaignId templateName extraVars today
        smtp n ls p (by rw [hsk]; exact hskip)
      rw [hstep]
      obtain ⟨h1, h2, h3, h4, h5⟩ := ih { ls with skipped := ls.skipped + 1 } hinv
      refine ⟨?_, ?_, ?_, h4, h5⟩
      · rw [h1]; simp [List.countP_cons, hskip]; omega
      · rw [h2]; simp [List.filter_cons, hskip]
      · rw [h3]; simp [List.countP_cons, hskip]
    | false =>
      obtain ⟨e1, e2, e3, e4, e5⟩ := campaignStep_effects cfg companyInfo campaignId
        templateName extraVars today smtp n ls p (by rw [hsk]; exact hskip)
      have hinv' : ∀ q, emailView
          (campaignStep cfg companyInfo campaignId templateName extraVars today smtp n ls p).db q =
          emailView db0 q := fun q => (e5 q).trans (hinv q)
      obtain ⟨h1, h2, h3, h4, h5⟩ :=
        ih (campaignStep cfg companyInfo campaignId templateName extraVars today smtp n ls p) hinv'
      refine ⟨?_, ?_, ?_, ?_, h5⟩
      · rw [h1, e1]; simp [List.countP_cons, hskip]
      · rw [h2, e2]; simp [List.filter_cons, hskip]
      · rw [h3, e3]
        by_cases hd : p.1 + 1 < n <;> simp [List.countP_cons, hskip, hd] <;> omega
      · rw [h4, e4]

/-- Counting a property of the items through an enumeration. -/
lemma countP_enumFrom_snd {α : Type} (q : α → Bool) :
    ∀ (l : List α) (k : Nat), (List.enumFrom k l).countP (fun p => q p.2) = l.countP q := by
  intro l
  induction l with
  | nil => intro k; rfl
  | cons a t ih =>
    intro k
    rw [List.enumFrom_cons, List.countP_cons, List.countP_cons, ih]

/-- Filtering by a property of the items through an enumeration. -/
lemma filter_enumFrom_snd {α : Type} (q : α → Bool) :
    ∀ (l : List α) (k : Nat),
      ((List.enumFrom k l).filter (fun p => q p.2)).map Prod.snd = l.filter q := by
  intro l
  induction l with
  | nil => intro k; rfl
  | cons a t ih =>
    intro k
    rw [List.enumFrom_cons, List.filter_cons, List.filter_cons]
    cases hq : q a with
    | true => simp [ih (k + 1)]
    | false => simp [ih (k + 1)]

/-- C7: run_campaign counts exactly the lead ids with no row or no stored
(non-empty) email as skipped, never hands any of them to the sender (the
sender is invoked exactly on the non-skipped ids, in order), and performs an
inter-send sleep only on non-skipped iterations that are not the last. -/
theorem run_campaign_skips (cfg : SenderConfig) (companyInfo : VarMap) (db : DB)
    (sst : SenderState) (campaignId : Nat) (leadIds : List Nat) (templateName : String)
    (extraVars : VarMap) (today : Nat) (smtp : Nat → Except String Unit) :
    (runCampaign cfg companyInfo db sst campaignId leadIds templateName extraVars today
      smtp).results.total = leadIds.length ∧
    (runCampaign cfg companyInfo db sst campaignId leadIds templateName extraVars today
      smtp).results.skipped = leadIds.countP (fun i => skippedLead db i) ∧
    (runCampaign cfg companyInfo db sst campaignId leadIds templateName extraVars today
      smtp).senderCalls = leadIds.filter (fun i => !skippedLead db i) ∧
    (runCampaign cfg companyInfo db sst campaignId leadIds templateName extraVars today
      smtp).delays = leadIds.enum.countP
        (fun p => !skippedLead db p.2 && decide (p.1 + 1 < leadIds.length)) := by
  have hinv : ∀ q, emailView
      (if (findCampaign db campaignId).isSome then
        updateCampaign db campaignId
          (fun c => { c with status := "active", startedAt := some today })
      else db) q = emailView db q := by
    intro q
    by_cases hf : (findCampaign db campaignId).isSome <;> simp [hf] <;> rfl
  obtain ⟨h1, h2, h3, h4, h5⟩ := campaignLoop_spec cfg companyInfo campaignId templateName
    extraVars today smtp leadIds.length db leadIds.enum
    { db := (if (findCampaign db campaignId).isSome then
        updateCampaign db campaignId
          (fun c => { c with status := "active", startedAt := some today })
      else db),
      sst := sst, sent := 0, failed := 0, skipped := 0, senderCalls := [], delays := 0 }
    hinv
  refine ⟨rfl, ?_, ?_, ?_⟩
  · simp only [runCampaign]
    rw [h1, List.enum_eq_enumFrom, countP_enumFrom_snd (fun i => skippedLead db i) leadIds 0]
    simp
  · simp only [runCampaign]
    rw [h2, List.enum_eq_enumFrom, filter_enumFrom_snd (fun i => !skippedLead db i) leadIds 0]
    simp
  · simp only [runCampaign]
    rw [h3]
    simp

/-- In-place update of the campaign rows with a given id rewrites the row
that a lookup finds. -/
lemma find_update_campaign (cid : Nat) (f : CampaignRow → CampaignRow)
    (hid : ∀ x, (f x).id = x.id) :
    ∀ (l : List CampaignRow) (c : CampaignRow),
      l.find? (fun x => x.id == cid) = some c →
      (l.map (fun x => if x.id == cid then f x else x)).find? (fun x => x.id == cid) =
        some (f c) := by
  intro l
  induction l with
  | nil => intro c h; cases h
  | cons a t ih =>
    intro c h
    rw [List.find?_cons] at h
    rw [List.map_cons, List.find?_cons]
    cases hc : (a.id == cid) with
    | true =>
      simp only [hc] at h
      cases h
      simp [hc, hid]
    | false =>
      simp only [hc] at h
      simp only [hc, Bool.false_eq_true, if_false]
      exact ih c h

/-- C9: run_campaign drives a stored campaign linearly through exactly the
status writes active (stamping started_at) before the loop and completed
(stamping completed_at and the final sent count) after it, for every SMTP
outcome sequence — there is no failed state and no backward move; and
create_campaign inserts new campaigns in the draft status. -/
theorem campaign_lifecycle (cfg : SenderConfig) (companyInfo : VarMap) (db : DB)
    (sst : SenderState) (campaignId : Nat) (leadIds : List Nat) (templateName : String)
    (extraVars : VarMap) (today : Nat) (smtp : Nat → Except String Unit)
    (c : CampaignRow) (hc : findCampaign db campaignId = some c) :
    (runCampaign cfg companyInfo db sst campaignId leadIds templateName extraVars today
      smtp).statusTrace = ["active", "completed"] ∧
    findCampaign (runCampaign cfg companyInfo db sst campaignId leadIds templateName extraVars
        today smtp).db campaignId =
      some { c with
              status := "completed", startedAt := some today, completedAt := some today,
              sentCount := (runCampaign cfg companyInfo db sst campaignId leadIds templateName
                extraVars today smtp).results.sent } ∧
    (∀ (db2 : DB) (nm tn : String) (lids : Option (List Nat)),
      ((createCampaign db2 nm tn lids).2).campaigns = db2.campaigns ++
        [{ id := freshCampaignId db2, name := nm, templateName := tn, status := "draft",
           totalRecipients := (match lids with | some ids => ids.length | none => 0),
           sentCount := 0, startedAt := none, completedAt := none }]) := by
  have hfound : (findCampaign db campaignId).isSome = true := by rw [hc]; rfl
  have hinv : ∀ q, emailView
      (if (findCampaign db campaignId).isSome then
        updateCampaign db campaignId
          (fun x => { x with status := "active", startedAt := some today })
      else db) q = emailView db q := by
    intro q
    by_cases hf : (findCampaign db campaignId).isSome <;> simp [hf] <;> rfl
  obtain ⟨h1, h2, h3, h4, h5⟩ := campaignLoop_spec cfg companyInfo campaignId templateName
    extraVars today smtp leadIds.length db leadIds.enum
    { db := (if (findCampaign db campaignId).isSome then
        updateCampaign db campaignId
          (fun x => { x with status := "active", startedAt := some today })
      else db),
      sst := sst, sent := 0, failed := 0, skipped := 0, senderCalls := [], delays := 0 }
    hinv
  refine ⟨?_, ?_, ?_⟩
  · simp only [runCampaign, hfound]
    rfl
  · have hstep1 : List.find? (fun x => x.id == campaignId)
        (db.campaigns.map (fun x => if x.id == campaignId then
          ({ x with status := "active", startedAt := some today } : CampaignRow) else x)) =
        some { c with status := "active", startedAt := some today } :=
      find_update_campaign campaignId
        (fun x => { x with status := "active", startedAt := some today }) (fun x => rfl)
        db.campaigns c hc
    simp only [runCampaign]
    simp only [if_pos hfound] at h4 ⊢
    unfold findCampaign updateCampaign
    dsimp only
    dsimp only [updateCampaign] at h4
    rw [h4]
    exact find_update_campaign campaignId
      (fun x =>
        { x with
            status := "completed",
            completedAt := some today,
            sentCount := (List.foldl
              (campaignStep cfg companyInfo campaignId templateName extraVars today smtp
                leadIds.length)
              { db := updateCampaign db campaignId
                  (fun y => { y with status := "active", startedAt := some today }),
                sst := sst, sent := 0, failed := 0, skipped := 0, senderCalls := [],
                delays := 0 }
              leadIds.enum).sent })
      (fun x => rfl) _ _ hstep1
  · intro db2 nm tn lids
    simp [createCampaign]

/-- Closed witness for the lifecycle theorem: a one-campaign database run
with no recipients ends completed with both timestamps stamped. -/
theorem campaign_lifecycle_witness :
    (runCampaign { dailySendLimit := 50 } [] dbC9 { dailySent := 0, lastReset := 0 } 1 []
      "follow_up_1" [] 7 (fun _ => .ok ())).statusTrace = ["active", "completed"] ∧
    findCampaign (runCampaign { dailySendLimit := 50 } [] dbC9 { dailySent := 0, lastReset := 0 }
        1 [] "follow_up_1" [] 7 (fun _ => .ok ())).db 1 =
      some { id := 1, name := "camp", templateName := "follow_up_1", status := "completed",
             totalRecipients := 0, sentCount := 0, startedAt := some 7,
             completedAt := some 7 } := by
  have h := campaign_lifecycle { dailySendLimit := 50 } [] dbC9 { dailySent := 0, lastReset := 0 }
    1 [] "follow_up_1" [] 7 (fun _ => .ok ())
    { id := 1, name := "camp", templateName := "follow_up_1", status := "draft",
      totalRecipients := 0, sentCount := 0, startedAt := none, completedAt := none } rfl
  exact ⟨h.1, h.2.1⟩

/-- C10: a send_template_email call whose rendering fails returns a failed
result carrying the rendering error with no mail-server contact and no
EmailLog row, while an SMTP-level failure writes one failed log row; hence a
campaign whose template cannot render reports failed = 1 while
get_campaign_stats recomputes 0 failed rows from the log. -/
theorem send_template_email_log_asymmetry (cfg : SenderConfig) (companyInfo : VarMap)
    (today : Nat) (smtp : Except String Unit) (st : SenderState) (toEmail : String)
    (templateName : String) (vars : VarMap) (leadId campaignId : Option Nat) :
    (∀ e, renderTemplate companyInfo templateName vars = .error e →
      sendTemplateEmail cfg companyInfo today smtp st toEmail templateName vars leadId
          campaignId =
        { st := st, result := mkFailResult toEmail e, logs := [], smtpContacted := false }) ∧
    (∀ subject body m, renderTemplate companyInfo templateName vars = .ok (subject, body) →
      smtp = .error m → (checkDailyLimit cfg today st).2 = true →
      ¬ toEmail = "" → ¬ subject = "" →
      (sendTemplateEmail cfg companyInfo today smtp st toEmail templateName vars leadId
        campaignId).logs =
        [{ leadId := leadId, campaignId := campaignId, toEmail := toEmail, subject := subject,
           status := "failed", errorMessage := some m, sentAt := none, openedAt := none,
           repliedAt := none }]) ∧
    (runCampaign { dailySendLimit := 50 } [] dbC10 { dailySent := 0, lastReset := 0 } 1 [1]
      "nope" [] 0 (fun _ => .ok ())).results.failed = 1 ∧
    (getCampaignStats (runCampaign { dailySendLimit := 50 } [] dbC10
        { dailySent := 0, lastReset := 0 } 1 [1] "nope" [] 0 (fun _ => .ok ())).db 1).map
      (fun s => s.failed) = some 0 := by
  refine ⟨?_, ?_, ?_, ?_⟩
  · intro e he
    simp [sendTemplateEmail, he]
  · intro subject body m hr hs hck hte hsu
    subst hs
    simp only [sendTemplateEmail, hr]
    rcases hcp : checkDailyLimit cfg today st with ⟨st1, ok⟩
    rw [hcp] at hck
    simp only at hck
    subst hck
    simp [sendEmail, hcp, hte, hsu]
  · rfl
  · rfl

set_option maxRecDepth 400000 in
/-- Closed witness for the log-asymmetry theorem: an unknown template name
produces a failed result with no log row, and a rendering success followed
by an SMTP error produces exactly one failed log row. -/
theorem send_template_email_log_asymmetry_witness :
    sendTemplateEmail { dailySendLimit := 50 } [] 0 (.ok ()) { dailySent := 0, lastReset := 0 }
        "a@b.c" "nope" [] none none =
      { st := { dailySent := 0, lastReset := 0 },
        result := mkFailResult "a@b.c" (notFoundMsg "nope"), logs := [],
        smtpContacted := false } ∧
    (sendTemplateEmail { dailySendLimit := 50 } followUpInfo 0 (.error "boom")
        { dailySent := 0, lastReset := 0 } "a@b.c" "follow_up_1" [] (some 3) (some 4)).logs =
      [{ leadId := some 3, campaignId := some 4, toEmail := "a@b.c",
         subject := "Re: Textile Manufacturing Partnership - Following Up", status := "failed",
         errorMessage := some "boom", sentAt := none, openedAt := none,
         repliedAt := none }] := by
  have h := send_template_email_log_asymmetry { dailySendLimit := 50 } [] 0 (.ok ())
    { dailySent := 0, lastReset := 0 } "a@b.c" "nope" [] none none
  have h2 := send_template_email_log_asymmetry { dailySendLimit := 50 } followUpInfo 0
    (.error "boom") { dailySent := 0, lastReset := 0 } "a@b.c" "follow_up_1" [] (some 3) (some 4)
  refine ⟨h.1 (notFoundMsg "nope") rfl, ?_⟩
  exact h2.2.1 "Re: Textile Manufacturing Partnership - Following Up" _ "boom" rfl rfl
    (by decide) (by decide) (by decide)
